import Mathlib

/-!
Verification of the wallaby write-ahead-log storage engine.

The Go source is shallowly embedded: files and buffers are `List Nat`
(one Nat per byte, each < 256 by construction), machine integers are
`Nat`/`Int` with explicit reductions modulo 2^32 / 2^64 where the Go
code converts, and fallible operations return `Except`/`Option` or an
explicit error field.  The `xbinary` little-endian codec dependency is
modelled by `xbUintW`/`putBytes` with its documented all-or-nothing
bounds check (reads and writes fail without effect when
`offset + width > len(buffer)`).
-/

set_option autoImplicit false

namespace Wallaby

/-- Error kinds used by the wallaby source (wal.go / common/errors.go).
Only the constructors the embedded operations can produce are listed. -/
inductive WErr where
  | recordTooLarge
  | invalidRecordSize
  | logClosed
  | sliceOutOfBounds
  | readIndex
  | outOfRange
  | writeLogRecord
  deriving DecidableEq, Repr

deriving instance DecidableEq for Except

/-- Value of a little-endian byte list, first byte least significant. -/
def leNat (bs : List Nat) : Nat :=
  bs.foldr (fun b acc => b % 256 + 256 * acc) 0

/-- Little-endian encoding of `v` in exactly `w` bytes (Go `binary.LittleEndian.Put*`). -/
def leBytes : Nat → Nat → List Nat
  | 0, _ => []
  | w + 1, v => v % 256 :: leBytes w (v / 256)

/-- Two's-complement 8-byte little-endian encoding of a signed 64-bit value. -/
def le8i (v : Int) : List Nat :=
  leBytes 8 (v % (2 ^ 64 : Int)).toNat

/-- xbinary `Uint*`/`Int64` read: `none` models the ErrOutOfRange result returned
when `offset + width > len(buffer)`. -/
def xbUintW (w : Nat) (buf : List Nat) (off : Nat) : Option Nat :=
  if off + w ≤ buf.length then some (leNat ((buf.drop off).take w)) else none

/-- xbinary `Uint32(buf, off)`. -/
def xbUint32 (buf : List Nat) (off : Nat) : Option Nat :=
  xbUintW 4 buf off

/-- xbinary `Uint64(buf, off)`. -/
def xbUint64 (buf : List Nat) (off : Nat) : Option Nat :=
  xbUintW 8 buf off

/-- xbinary `Int64(buf, off)`: unsigned read reinterpreted as two's complement. -/
def xbInt64 (buf : List Nat) (off : Nat) : Option Int :=
  (xbUintW 8 buf off).map fun n => if n < 2 ^ 63 then (n : Int) else (n : Int) - 2 ^ 64

/-- xbinary `Put*(buf, off, v)`: writes `bs` at `off` when it fits, otherwise
leaves the buffer untouched (the source ignores the returned error in the
places we embed). -/
def putBytes (buf : List Nat) (off : Nat) (bs : List Nat) : List Nat :=
  if off + bs.length ≤ buf.length then
    buf.take off ++ bs ++ buf.drop (off + bs.length)
  else buf

/-- Go `copy(buf[dstOff:dstOff+dstLen], src)`: copies `min dstLen src.length`
bytes, leaving the rest of `buf` intact. -/
def goCopySub (buf : List Nat) (dstOff dstLen : Nat) (src : List Nat) : List Nat :=
  let k := min dstLen src.length
  buf.take dstOff ++ src.take k ++ buf.drop (dstOff + k)

/-! ### Index file: constants and `Slice`/`Get` (src/index.go, src/log_index.go) -/

/-- `MaximumIndexSlice` (src/index.go line 37). -/
def maximumIndexSlice : Nat := 32000

/-- `VersionOneIndexHeaderSize` (src/index.go line 33). -/
def versionOneIndexHeaderSize : Nat := 8

/-- `VersionOneIndexRecordSize` (src/index.go line 34). -/
def versionOneIndexRecordSize : Nat := 24

/-- `VersionOneIndexSlice` (src/index.go): a buffer of raw entry bytes plus the
entry count `read / VersionOneIndexRecordSize`. -/
structure IndexSliceV1 where
  buffer : List Nat
  size : Nat
  deriving DecidableEq, Repr

/-- The `make([]byte, ...)` sizing block of `Slice` (src/index.go lines
309-321), byte-for-byte: note the middle branch allocates
`VersionOneIndexRecordSize * (uint64(offset+limit) - size)` bytes. -/
def sliceBufLen (count : Nat) (offset limit : Int) : Nat :=
  if limit > (maximumIndexSlice : Int) then
    versionOneIndexRecordSize * maximumIndexSlice
  else if offset + limit > (count : Int) then
    versionOneIndexRecordSize * ((offset + limit) - (count : Int)).toNat
  else
    versionOneIndexRecordSize * limit.toNat

/-- `VersionOneIndexFile.Slice(offset, limit)` (src/index.go lines 293-330,
identical in src/log_index.go lines 312-344).  `file` is the index file's
byte content and `count` the in-memory entry count read after the flush.
`ReadAt` is modelled as filling the whole buffer from position
`offset*VersionOneIndexRecordSize + VersionOneIndexHeaderSize`, returning
`ErrReadIndex` when the file is too short to fill it (io.EOF on a short
positional read). -/
def indexFileSlice (file : List Nat) (count : Nat) (offset limit : Int) :
    Except WErr IndexSliceV1 :=
  if offset > (count : Int) ∨ offset < 0 then .error .sliceOutOfBounds
  else if limit < 1 then .error .sliceOutOfBounds
  else
    let bufLen : Nat := sliceBufLen count offset limit
    let pos : Nat := offset.toNat * versionOneIndexRecordSize + versionOneIndexHeaderSize
    if pos + bufLen ≤ file.length then
      .ok ⟨(file.drop pos).take bufLen, bufLen / versionOneIndexRecordSize⟩
    else .error .readIndex

/-- `VersionOneIndexRecord` (src/index.go lines 79-112): a view into the
slice buffer at a byte offset. -/
structure IndexRecordView where
  buffer : List Nat
  offset : Nat
  deriving DecidableEq, Repr

/-- `VersionOneIndexSlice.Get(index)` (src/index.go lines 344-350): rejects
`index > s.size || index < 0`, otherwise returns a view at byte offset
`index * VersionOneIndexRecordSize`. -/
def indexSliceGet (s : IndexSliceV1) (index : Int) : Except WErr IndexRecordView :=
  if index > (s.size : Int) ∨ index < 0 then .error .sliceOutOfBounds
  else .ok ⟨s.buffer, index.toNat * versionOneIndexRecordSize⟩

/-- `VersionOneIndexRecord.Time` (src/index.go lines 85-92): a failed
little-endian read yields 0. -/
def indexRecordTime (r : IndexRecordView) : Int :=
  (xbInt64 r.buffer (0 + r.offset)).getD 0

/-- `VersionOneIndexRecord.Index` (src/index.go lines 95-102). -/
def indexRecordIndex (r : IndexRecordView) : Nat :=
  (xbUint64 r.buffer (8 + r.offset)).getD 0

/-- `VersionOneIndexRecord.Offset` (src/index.go lines 105-112). -/
def indexRecordOffset (r : IndexRecordView) : Int :=
  (xbInt64 r.buffer (16 + r.offset)).getD 0

/-! ### Data file / WAL engine: `versionOneLogFile.Write` (src/log.go) -/

/-- Log state (src/log.go lines 17-25). -/
inductive LogState where
  | unopened
  | opened
  | closed
  deriving DecidableEq, Repr

/-- The mutable fields of `versionOneLogFile` (src/log.go lines 291-304)
that `Write` touches.  `hashInput` is the stream of bytes fed to the
rolling `hash.Hash64` so far — the hasher's state is a function of exactly
this stream.  `indexEntries` is the list of 32-byte index records appended
via `v.index.Write`, and `indexCount` the index's entry counter. -/
structure V1LogFileState where
  state : LogState
  size : Int
  hashInput : List Nat
  indexBuffer : List Nat
  indexEntries : List (List Nat)
  indexCount : Nat
  ttl : Int
  lastWriteTime : Int
  deriving DecidableEq, Repr

/-- Result of `versionOneLogFile.Write`: the returned byte count, the
returned error, and the state after the call. -/
structure WriteOutcome where
  n : Nat
  err : Option WErr
  st : V1LogFileState
  deriving DecidableEq, Repr

/-- `v1LogRecordFactory.Write` (src/log.go lines 153-174) writes the
24-byte record header *into the caller's payload buffer* with four
independent bounds-checked `Put` calls (each silently skipped when the
payload is shorter than `offset + width`), then copies the result into the
factory's scratch buffer after 24 bytes.  This function is that mutated
payload buffer. -/
def clobberHeaderIntoPayload (bFlags bIndex : Nat) (now : Int) (data : List Nat) : List Nat :=
  let d := putBytes data 0 (leBytes 4 (data.length % 2 ^ 32))
  let d := putBytes d 4 (leBytes 4 (bFlags % 2 ^ 32))
  let d := putBytes d 8 (le8i now)
  putBytes d 16 (leBytes 8 (bIndex % 2 ^ 64))

/-- The byte sequence `v1LogRecordFactory.Write` hands to its parent
writer: `b.buffer[:len(data)+24]`.  The scratch buffer was created with
`make([]byte, 0, maxSize+24)`, so its first 24 bytes are the zeroed backing
array; the payload region holds the clobbered payload. -/
def v1LogRecordFactoryRecord (bFlags bIndex : Nat) (now : Int) (data : List Nat) : List Nat :=
  List.replicate 24 0 ++ clobberHeaderIntoPayload bFlags bIndex now data

/-- `versionOneLogFile.Write(data)` (src/log.go lines 355-398).
`bFlags`/`bIndex` are the record factory's `flags`/`index` fields (both 0
as installed by `Open`; the factory's value receiver never persists
`b.index++`).  `parentErr`/`partN` model the outcome of the underlying
file write: `none` means the pipeline wrote the whole record, `some e`
means it failed after `partN` bytes.  Steps, in source order: state check;
`v.hash.Write(data)`; the factory's size check and the pipeline write;
`v.size += n`; `copy(v.indexBuffer[:16], data[8:])` (data is by then the
clobbered buffer); `Int64(data, 0)` into `lastWriteTime` (early return on
error); `PutInt64(v.indexBuffer, 16, v.size)`;
`PutInt64(v.indexBuffer, 24, v.ttl)`; `v.index.Write(v.indexBuffer)`. -/
def versionOneLogFileWrite (maxSize bFlags bIndex : Nat) (now : Int)
    (parentErr : Option WErr) (partN : Nat)
    (s : V1LogFileState) (data : List Nat) : WriteOutcome :=
  if s.state ≠ .opened then ⟨0, some .logClosed, s⟩
  else
    let s1 := { s with hashInput := s.hashInput ++ data }
    if data.length > maxSize then ⟨0, some .recordTooLarge, s1⟩
    else
      match parentErr with
      | some e => ⟨partN, some e, s1⟩
      | none =>
        let cd := clobberHeaderIntoPayload bFlags bIndex now data
        let n := (v1LogRecordFactoryRecord bFlags bIndex now data).length
        let s2 := { s1 with size := s1.size + n }
        let ib1 := goCopySub s2.indexBuffer 0 16 (cd.drop 8)
        match xbInt64 cd 0 with
        | none => ⟨n, some .outOfRange, { s2 with indexBuffer := ib1 }⟩
        | some lwt =>
          let s3 := { s2 with lastWriteTime := lwt, indexBuffer := ib1 }
          let ib2 := putBytes s3.indexBuffer 16 (le8i s3.size)
          let ib3 := putBytes ib2 24 (le8i s3.ttl)
          let s4 := { s3 with
            indexBuffer := ib3
            indexEntries := s3.indexEntries ++ [ib3]
            indexCount := s3.indexCount + 1 }
          ⟨n, none, s4⟩

/-! ### `BasicLogRecord` binary codec (src/log.go lines 183-283) -/

/-- `BasicLogRecord` (src/log.go lines 183-189). -/
structure BasicLogRecord where
  size : Nat
  nanos : Int
  index : Nat
  flags : Nat
  data : List Nat
  deriving DecidableEq, Repr

/-- `BasicLogRecord.MarshalBinary` (src/log.go lines 227-248): a 24-byte
header — `size` (u32 LE), `flags` (u32 LE), `time` (i64 LE), `index`
(u64 LE) — followed by the payload
(`buffer = append(buffer[:24], r.data...)`). -/
def basicLogRecordMarshal (r : BasicLogRecord) : List Nat :=
  leBytes 4 (r.size % 2 ^ 32) ++ leBytes 4 (r.flags % 2 ^ 32) ++
    le8i r.nanos ++ leBytes 8 (r.index % 2 ^ 64) ++ r.data

/-- `UnmarshalBasicLogRecord` (src/log.go lines 253-283); the
`VersionOneLogRecordHeaderSize` guard, the `size != uint32(len(buffer)-24)`
check, the four field reads — and the `copy(r.data, buffer[24:])` into the
record's nil `data` slice, which copies zero bytes, so the decoded record's
payload is always empty. -/
def unmarshalBasicLogRecord (buffer : List Nat) : Except WErr BasicLogRecord :=
  if buffer.length < 24 then .error .invalidRecordSize
  else
    let size := (xbUint32 buffer 0).getD 0
    if size ≠ (buffer.length - 24) % 2 ^ 32 then .error .invalidRecordSize
    else
      .ok ⟨size, (xbInt64 buffer 8).getD 0, (xbUint64 buffer 16).getD 0,
        (xbUint32 buffer 4).getD 0, []⟩

/-! ### `versionOneLogFile.Pipe` (src/log.go lines 455-482) -/

/-- A record as seen by `Pipe`'s loop: its log index and the bytes its
`MarshalBinary` would produce. -/
structure PipeRecord where
  index : Nat
  bytes : List Nat
  deriving DecidableEq, Repr

/-- Outcome of a `Pipe` call: the sink's final contents and the returned
error, or a runtime panic. -/
inductive PipeResult where
  | ok (sink : List Nat) (err : Option WErr)
  | panicked
  deriving DecidableEq, Repr

/-- `versionOneLogFile.Pipe(offset, limit, writer)` (src/log.go lines
455-482), granted a functioning cursor over `records` (in the source,
`v.Cursor()` returns nil, so every real call panics at `cur.Seek`; the
loop itself is embedded as written).  The loop is
`for record, err := cur.Seek(offset); err != nil && record.Index() <
limit+offset; record, err = cur.Next() { ... }`: when `Seek` succeeds
(`err == nil`) the guard is immediately false and the body never runs, so
the sink receives nothing and `nil` is returned; when `Seek` fails the
guard dereferences the nil `record`, which panics. -/
def versionOneLogFilePipe (records : List PipeRecord) (offset limit : Nat)
    (sink : List Nat) : PipeResult :=
  match records[offset]? with
  | some _ => .ok sink none
  | none => .panicked

/-! ### v1 index factory (src/v1/index.go) and file headers (common) -/

/-- `IndexHeaderSize` (src/v1/constants.go). -/
def v1IndexHeaderSize : Nat := 16

/-- `IndexRecordSize` (src/v1/constants.go). -/
def v1IndexRecordSize : Nat := 24

/-- `common.WriteFileHeader` byte layout (src/unnamed/part_008): 3-byte
signature, version byte, flags (u32 LE), ttl (i64 LE) — 16 bytes. -/
def fileHeaderBytes (sig : List Nat) (version flags : Nat) (ttl : Int) : List Nat :=
  sig ++ [version % 256] ++ leBytes 4 (flags % 2 ^ 32) ++ le8i ttl

/-- `IndexFileSignature` — the ASCII bytes of IDX. -/
def idxSignature : List Nat := [73, 68, 88]

/-- `NewIndexRecordEncoder` (src/v1/index.go lines 13-21): `time` at 0,
`index` at 8, `offset` at 16, little-endian, 24 bytes. -/
def v1EntryBytes (time : Int) (index : Nat) (offset : Int) : List Nat :=
  le8i time ++ leBytes 8 (index % 2 ^ 64) ++ le8i offset

/-- Result of opening an index file: the reconstructed entry count and the
file's resulting byte content. -/
structure V1IndexOpenResult where
  count : Nat
  file : List Nat
  deriving DecidableEq, Repr

/-- `VersionOneIndexFactory` (src/v1/index.go lines 89-171), the open /
reconstruction path.  For an existing file (`stat.Size() >=
IndexHeaderSize`) the source declares `var size uint64` and then tests
`if size >= IndexHeaderSize+IndexRecordSize` — comparing the
still-zero `size` variable rather than `stat.Size()` — so the branch that
seeks to the last entry is unreachable and every reopened file is
truncated to the bare 16-byte header with count 0.  The unreachable branch
is embedded as written (it adopts `record.Index()`, the last entry's
stored index, as the count).  For a short/new file the 16-byte header is
appended (the handle is opened with O_APPEND). -/
def v1IndexFactoryOpen (flags : Nat) (expiration : Int) (file : List Nat) :
    V1IndexOpenResult :=
  if v1IndexHeaderSize ≤ file.length then
    let size : Nat := 0
    if v1IndexHeaderSize + v1IndexRecordSize ≤ size then
      let entry := (file.drop (file.length - v1IndexRecordSize)).take v1IndexRecordSize
      ⟨(xbUint64 entry 8).getD 0, file⟩
    else
      ⟨0, file.take v1IndexHeaderSize⟩
  else
    ⟨0, file ++ fileHeaderBytes idxSignature 1 flags expiration⟩

/-! ### XXH64 and the v1 WAL engine's rolling hash (src/v1/log.go)

Modelled from the spec: the 64-bit hashing primitive
(`github.com/OneOfOne/xxhash`, `XXH64` with seed 0) is an external utility
dependency whose source is not under src/; it is embedded here from the
public XXH64 algorithm specification. -/

def w64 : Nat := 2 ^ 64

def xxhPrime1 : Nat := 11400714785074694791
def xxhPrime2 : Nat := 14029467366897019727
def xxhPrime3 : Nat := 1609587929392839161
def xxhPrime4 : Nat := 9650029242287828579
def xxhPrime5 : Nat := 2870177450012600261

/-- 64-bit rotate left. -/
def rotl64 (x r : Nat) : Nat :=
  ((x <<< r) ||| (x >>> (64 - r))) % w64

/-- XXH64 accumulator round. -/
def xxhRound (acc lane : Nat) : Nat :=
  rotl64 ((acc + lane * xxhPrime2) % w64) 31 * xxhPrime1 % w64

/-- XXH64 merge of one accumulator into the converged hash. -/
def xxhMerge (acc v : Nat) : Nat :=
  ((acc ^^^ xxhRound 0 v) * xxhPrime1 % w64 + xxhPrime4) % w64

/-- XXH64 final avalanche. -/
def xxhAvalanche (h : Nat) : Nat :=
  let h := h ^^^ (h >>> 33)
  let h := h * xxhPrime2 % w64
  let h := h ^^^ (h >>> 29)
  let h := h * xxhPrime3 % w64
  h ^^^ (h >>> 32)

/-- XXH64 main loop, structurally recursive on a fuel argument (any fuel
at least `bs.length` yields the fixpoint): fold 32-byte stripes into the
four accumulators, returning them with the unconsumed suffix. -/
def xxhStripesGo : Nat → Nat × Nat × Nat × Nat → List Nat → (Nat × Nat × Nat × Nat) × List Nat
  | 0, vs, bs => (vs, bs)
  | fuel + 1, (a, b, c, d), bs =>
    if 32 ≤ bs.length then
      xxhStripesGo fuel
        (xxhRound a (leNat (bs.take 8)),
          xxhRound b (leNat ((bs.drop 8).take 8)),
          xxhRound c (leNat ((bs.drop 16).take 8)),
          xxhRound d (leNat ((bs.drop 24).take 8)))
        (bs.drop 32)
    else ((a, b, c, d), bs)

/-- XXH64 main loop entry point. -/
def xxhStripes (vs : Nat × Nat × Nat × Nat) (bs : List Nat) :
    (Nat × Nat × Nat × Nat) × List Nat :=
  xxhStripesGo bs.length vs bs

/-- XXH64 tail, structurally recursive on a fuel argument: consume the
remaining bytes in 8-, 4- and 1-byte steps. -/
def xxhTailGo : Nat → Nat → List Nat → Nat
  | 0, h, _ => h
  | fuel + 1, h, bs =>
    if 8 ≤ bs.length then
      xxhTailGo fuel ((rotl64 (h ^^^ xxhRound 0 (leNat (bs.take 8))) 27 * xxhPrime1 % w64
        + xxhPrime4) % w64) (bs.drop 8)
    else if 4 ≤ bs.length then
      xxhTailGo fuel ((rotl64 (h ^^^ (leNat (bs.take 4) * xxhPrime1 % w64)) 23
        * xxhPrime2 % w64 + xxhPrime3) % w64) (bs.drop 4)
    else
      match bs with
      | [] => h
      | b :: rest =>
        xxhTailGo fuel (rotl64 (h ^^^ (b % 256 * xxhPrime5 % w64)) 11 * xxhPrime1 % w64) rest

/-- XXH64 tail entry point. -/
def xxhTail (h : Nat) (bs : List Nat) : Nat :=
  xxhTailGo bs.length h bs

/-- XXH64 with seed 0 over a byte list. -/
def xxh64 (input : List Nat) : Nat :=
  let len := input.length
  if 32 ≤ len then
    let s := xxhStripes ((xxhPrime1 + xxhPrime2) % w64, xxhPrime2, 0, w64 - xxhPrime1) input
    let h := (rotl64 s.1.1 1 + rotl64 s.1.2.1 7 + rotl64 s.1.2.2.1 12
      + rotl64 s.1.2.2.2 18) % w64
    let h := xxhMerge h s.1.1
    let h := xxhMerge h s.1.2.1
    let h := xxhMerge h s.1.2.2.1
    let h := xxhMerge h s.1.2.2.2
    xxhAvalanche (xxhTail ((h + len) % w64) s.2)
  else
    xxhAvalanche (xxhTail ((xxhPrime5 + len) % w64) input)

/-- The v1 WAL engine state touched by `wal.Write` (src/v1/log.go lines
186-227): the data-file size, last write time, the index's entry count,
the index file's bytes after the 16-byte header, and the byte stream fed
to the rolling hash. -/
structure WalV1State where
  logSize : Int
  lastWriteTime : Int
  count : Nat
  idxEntries : List Nat
  hashInput : List Nat
  deriving DecidableEq, Repr

/-- `wal.Write(data)` (src/v1/log.go lines 199-227): stamp `index =
w.index.Size()`; encode the record (16-byte v1 header, `RecordTooLarge`
when oversize); append the 24-byte index entry `(now, index, w.logSize)`;
then `w.logSize += n`, `w.lastWriteTime = now`, and feed the entry bytes
to the hash via `w.hashWriter(indexRecord)`.  The data-file bytes
themselves play no role in the hash and are not tracked. -/
def walWriteV1 (maxSize : Nat) (s : WalV1State) (now : Int) (data : List Nat) :
    WalV1State × Nat × Option WErr :=
  let size := s.count
  if data.length > maxSize then (s, 0, some .recordTooLarge)
  else
    let n := 16 + data.length
    let e := v1EntryBytes now size s.logSize
    let s1 := { s with idxEntries := s.idxEntries ++ e, count := s.count + 1 }
    let s2 := { s1 with logSize := s1.logSize + n, lastWriteTime := now }
    ({ s2 with hashInput := s2.hashInput ++ e }, n, none)

/-- The WAL state right after `v1.Create` on a fresh pair of files
(src/v1/log.go lines 135-184): `logSize = stat.Size()` (16-byte data-file
header), empty index, and a hash seeded from `io.Copy(hash, idxFile)` over
the then-empty index file — i.e. nothing. -/
def freshWalV1 : WalV1State :=
  ⟨16, 0, 0, [], []⟩

theorem putBytes_length (buf : List Nat) (off : Nat) (bs : List Nat) :
    (putBytes buf off bs).length = buf.length := by
  unfold putBytes
  split
  · simp only [List.length_append, List.length_take, List.length_drop]
    omega
  · rfl

theorem clobberHeaderIntoPayload_length (bFlags bIndex : Nat) (now : Int) (data : List Nat) :
    (clobberHeaderIntoPayload bFlags bIndex now data).length = data.length := by
  unfold clobberHeaderIntoPayload
  simp only [putBytes_length]

theorem v1LogRecordFactoryRecord_length (bFlags bIndex : Nat) (now : Int) (data : List Nat) :
    (v1LogRecordFactoryRecord bFlags bIndex now data).length = 24 + data.length := by
  unfold v1LogRecordFactoryRecord
  simp [clobberHeaderIntoPayload_length]
  omega

/-- C1: on an open log, a `Write` whose payload fits in `max_record_size`
and whose underlying pipeline write succeeds returns
`24 + len(payload)` bytes — the 24-byte record header plus the payload
(the byte count is fixed by the record the factory hands to the pipeline,
whether or not the post-write bookkeeping reports an error). -/
theorem versionOneLogFileWrite_byte_count (maxSize bFlags bIndex : Nat) (now : Int)
    (s : V1LogFileState) (data : List Nat)
    (hopen : s.state = .opened) (hlen : data.length ≤ maxSize) :
    (versionOneLogFileWrite maxSize bFlags bIndex now none 0 s data).n = 24 + data.length := by
  unfold versionOneLogFileWrite
  rw [if_neg (by simp [hopen])]
  dsimp only
  rw [if_neg (by omega)]
  cases hx : xbInt64 (clobberHeaderIntoPayload bFlags bIndex now data) 0 <;>
    simp [hx, v1LogRecordFactoryRecord_length]

/-- C1 witness: writing an 8-byte payload to a fresh open log returns
`32 = 24 + 8` (the count asserted by the source's own cursor tests). -/
theorem versionOneLogFileWrite_byte_count_witness :
    (versionOneLogFileWrite 65535 0 0 0 none 0
      ⟨.opened, 8, [], List.replicate 32 0, [], 0, 0, 0⟩
      (List.replicate 8 0)).n = 24 + (List.replicate 8 0).length :=
  versionOneLogFileWrite_byte_count 65535 0 0 0
    ⟨.opened, 8, [], List.replicate 32 0, [], 0, 0, 0⟩
    (List.replicate 8 0) rfl (by decide)

/-- C4: the claim that a record's index entry stores the byte position of
the start of its 24-byte header (the data-file size just before the write)
is false on the code: `Write` stores `v.size` *after* adding the record's
bytes.  On a fresh log (8-byte data-file header, so the first record's
header starts at byte 8), one 8-byte write appends an index entry whose
offset field decodes to 40 = 8 + 24 + 8 — the end of the record — not 8. -/
theorem versionOneLogFileWrite_offset_is_post_write_size :
    ((versionOneLogFileWrite 65535 0 0 0 none 0
        ⟨.opened, 8, [], List.replicate 32 0, [], 0, 0, 0⟩
        (List.replicate 8 0)).st.indexEntries.map fun e => (xbInt64 e 16).getD 0) = [40] ∧
    (40 : Int) ≠ 8 :=
  ⟨rfl, by decide⟩

set_option maxRecDepth 8000 in
/-- C5 counterexample: with `max_record_size = 1024`, a `Write` of 1025
bytes on a fresh open log returns `RecordTooLarge` and leaves the size and
the index untouched — but the rolling hash does *not* keep its prior
value: `v.hash.Write(data)` runs before the size check, so the rejected
payload has already been fed into the hash. -/
theorem versionOneLogFileWrite_too_large_feeds_hash :
    (versionOneLogFileWrite 1024 0 0 0 none 0
        ⟨.opened, 8, [], List.replicate 32 0, [], 0, 0, 0⟩
        (List.replicate 1025 7)).err = some .recordTooLarge ∧
    (versionOneLogFileWrite 1024 0 0 0 none 0
        ⟨.opened, 8, [], List.replicate 32 0, [], 0, 0, 0⟩
        (List.replicate 1025 7)).st.size = 8 ∧
    (versionOneLogFileWrite 1024 0 0 0 none 0
        ⟨.opened, 8, [], List.replicate 32 0, [], 0, 0, 0⟩
        (List.replicate 1025 7)).st.indexEntries = [] ∧
    (versionOneLogFileWrite 1024 0 0 0 none 0
        ⟨.opened, 8, [], List.replicate 32 0, [], 0, 0, 0⟩
        (List.replicate 1025 7)).st.hashInput = List.replicate 1025 7 ∧
    List.replicate 1025 7 ≠ ([] : List Nat) :=
  ⟨rfl, rfl, rfl, rfl, by decide⟩

/-- C5 (amended): if the payload is rejected as too large or the
data-file write step fails, `Write` surfaces an error and leaves the
in-memory size, the index entries and the index count unchanged — but the
rolling hash has already been fed the payload bytes, because
`v.hash.Write(data)` runs before validation and before the pipeline
write. -/
theorem versionOneLogFileWrite_failure_state (maxSize bFlags bIndex : Nat) (now : Int)
    (parentErr : Option WErr) (partN : Nat) (s : V1LogFileState) (data : List Nat)
    (hopen : s.state = .opened)
    (hfail : maxSize < data.length ∨ parentErr.isSome) :
    (versionOneLogFileWrite maxSize bFlags bIndex now parentErr partN s data).err.isSome ∧
    (versionOneLogFileWrite maxSize bFlags bIndex now parentErr partN s data).st.size = s.size ∧
    (versionOneLogFileWrite maxSize bFlags bIndex now parentErr partN s data).st.indexEntries
      = s.indexEntries ∧
    (versionOneLogFileWrite maxSize bFlags bIndex now parentErr partN s data).st.indexCount
      = s.indexCount ∧
    (versionOneLogFileWrite maxSize bFlags bIndex now parentErr partN s data).st.hashInput
      = s.hashInput ++ data := by
  unfold versionOneLogFileWrite
  rw [if_neg (by simp [hopen])]
  dsimp only
  by_cases hl : data.length > maxSize
  · rw [if_pos hl]
    exact ⟨rfl, rfl, rfl, rfl, rfl⟩
  · rw [if_neg hl]
    cases parentErr with
    | some e => exact ⟨rfl, rfl, rfl, rfl, rfl⟩
    | none =>
      cases hfail with
      | inl h => omega
      | inr h => simp at h

/-- C5 witness: the amended statement at a concrete failing pipeline write
(8-byte payload, underlying write fails with `WriteLogRecord`). -/
theorem versionOneLogFileWrite_failure_state_witness :
    (versionOneLogFileWrite 1024 0 0 0 (some .writeLogRecord) 0
        ⟨.opened, 8, [], List.replicate 32 0, [], 0, 0, 0⟩
        (List.replicate 8 0)).err.isSome ∧
    (versionOneLogFileWrite 1024 0 0 0 (some .writeLogRecord) 0
        ⟨.opened, 8, [], List.replicate 32 0, [], 0, 0, 0⟩
        (List.replicate 8 0)).st.size
      = (⟨.opened, 8, [], List.replicate 32 0, [], 0, 0, 0⟩ : V1LogFileState).size ∧
    (versionOneLogFileWrite 1024 0 0 0 (some .writeLogRecord) 0
        ⟨.opened, 8, [], List.replicate 32 0, [], 0, 0, 0⟩
        (List.replicate 8 0)).st.indexEntries
      = (⟨.opened, 8, [], List.replicate 32 0, [], 0, 0, 0⟩ : V1LogFileState).indexEntries ∧
    (versionOneLogFileWrite 1024 0 0 0 (some .writeLogRecord) 0
        ⟨.opened, 8, [], List.replicate 32 0, [], 0, 0, 0⟩
        (List.replicate 8 0)).st.indexCount
      = (⟨.opened, 8, [], List.replicate 32 0, [], 0, 0, 0⟩ : V1LogFileState).indexCount ∧
    (versionOneLogFileWrite 1024 0 0 0 (some .writeLogRecord) 0
        ⟨.opened, 8, [], List.replicate 32 0, [], 0, 0, 0⟩
        (List.replicate 8 0)).st.hashInput
      = (⟨.opened, 8, [], List.replicate 32 0, [], 0, 0, 0⟩ : V1LogFileState).hashInput
          ++ List.replicate 8 0 :=
  versionOneLogFileWrite_failure_state 1024 0 0 0 (some .writeLogRecord) 0
    ⟨.opened, 8, [], List.replicate 32 0, [], 0, 0, 0⟩
    (List.replicate 8 0) rfl (Or.inr rfl)

theorem sliceBufLen_dvd (count : Nat) (offset limit : Int) :
    versionOneIndexRecordSize ∣ sliceBufLen count offset limit := by
  unfold sliceBufLen
  split
  · exact Dvd.intro _ rfl
  · split
    · exact Dvd.intro _ rfl
    · exact Dvd.intro _ rfl

theorem indexFileSlice_ok_buffer_length
    (file : List Nat) (count : Nat) (offset limit : Int) (s : IndexSliceV1)
    (h : indexFileSlice file count offset limit = .ok s) :
    s.buffer.length = versionOneIndexRecordSize * s.size := by
  unfold indexFileSlice at h
  split at h
  · exact absurd h (by simp)
  split at h
  · exact absurd h (by simp)
  dsimp only at h
  split at h
  · rename_i hle
    injection h with h
    subst h
    simp only [List.length_take, List.length_drop]
    obtain ⟨k, hk⟩ := sliceBufLen_dvd count offset limit
    rw [hk, Nat.mul_div_cancel_left k (by decide : 0 < versionOneIndexRecordSize)]
    omega
  · exact absurd h (by simp)

/-- C3: the claim that a successful `Slice(offset, limit)` with
`0 ≤ offset ≤ count` and `limit ≥ 1` returns
`min(limit, MAX_SLICE, count − offset)` entries is false on the code: with
100 entries, `Slice(50, 60)` succeeds but returns a slice of 10 entries
(`(offset+limit) − count`), not 50.  The same arithmetic slip at a size
small enough to evaluate here: with `count = 4`, `Slice(1, 4)` succeeds and
returns 1 entry where the claim requires `min(4, 32000, 4−1) = 3`. -/
theorem indexFileSlice_clamp_mismatch :
    indexFileSlice (List.replicate 104 0) 4 1 4 = .ok ⟨List.replicate 24 0, 1⟩ ∧
    (1 : Nat) ≠ min 4 (min maximumIndexSlice (4 - 1)) :=
  ⟨rfl, by decide⟩

/-- C9 counterexample: `slice(count, 1)` — here on an empty index,
`count = 0`, file = bare 8-byte header — does not fail with
`SliceOutOfBounds` as the claim states; the bounds guard only rejects
`offset > count`, and the subsequent short positional read reports
`ErrReadIndex` instead. -/
theorem indexFileSlice_at_count_not_out_of_bounds :
    indexFileSlice (List.replicate 8 0) 0 0 1 = .error .readIndex ∧
    indexFileSlice (List.replicate 8 0) 0 0 1 ≠ .error .sliceOutOfBounds :=
  ⟨rfl, by decide⟩

/-- C9 (amended): on a well-formed index file, `Slice` fails with
`SliceOutOfBounds` exactly when `offset < 0`, `offset > count` or
`limit < 1`; the boundary call `slice(count, 1)` fails, but with
`ErrReadIndex` (a short read past the last entry), not `SliceOutOfBounds`;
`slice(0, 0)` fails with `SliceOutOfBounds`. -/
theorem indexFileSlice_bounds_amended (file : List Nat) (count : Nat)
    (hwf : file.length = versionOneIndexHeaderSize + versionOneIndexRecordSize * count) :
    (∀ offset limit : Int,
      indexFileSlice file count offset limit = .error .sliceOutOfBounds ↔
        (offset < 0 ∨ offset > (count : Int) ∨ limit < 1))
    ∧ indexFileSlice file count (count : Int) 1 = .error .readIndex
    ∧ indexFileSlice file count 0 0 = .error .sliceOutOfBounds := by
  refine ⟨?_, ?_, ?_⟩
  · intro offset limit
    constructor
    · intro h
      unfold indexFileSlice at h
      split at h
      · rename_i hg
        omega
      split at h
      · rename_i hg
        omega
      dsimp only at h
      split at h
      · exact absurd h (by simp)
      · exact absurd h (by simp)
    · intro hg
      unfold indexFileSlice
      by_cases h1 : offset > (count : Int) ∨ offset < 0
      · rw [if_pos h1]
      · rw [if_neg h1, if_pos (by omega)]
  · unfold indexFileSlice
    rw [if_neg (by omega), if_neg (by omega)]
    dsimp only
    rw [if_neg ?_]
    have hb : sliceBufLen count (count : Int) 1 = versionOneIndexRecordSize := by
      unfold sliceBufLen
      rw [if_neg (by unfold maximumIndexSlice; omega), if_pos (by omega)]
      have : ((count : Int) + 1 - (count : Int)).toNat = 1 := by omega
      rw [this, Nat.mul_one]
    rw [hb, hwf]
    have : ((count : Int)).toNat = count := by omega
    rw [this]
    unfold versionOneIndexHeaderSize versionOneIndexRecordSize
    omega
  · unfold indexFileSlice
    rw [if_neg (by omega), if_pos (by omega)]

/-- C9 witness: the amended statement instantiated at the empty index
(`count = 0`, file = bare 8-byte header). -/
theorem indexFileSlice_bounds_amended_witness :
    (∀ offset limit : Int,
      indexFileSlice (List.replicate 8 0) 0 offset limit = .error .sliceOutOfBounds ↔
        (offset < 0 ∨ offset > (0 : Int) ∨ limit < 1))
    ∧ indexFileSlice (List.replicate 8 0) 0 (0 : Int) 1 = .error .readIndex
    ∧ indexFileSlice (List.replicate 8 0) 0 0 0 = .error .sliceOutOfBounds :=
  indexFileSlice_bounds_amended (List.replicate 8 0) 0 (by decide)

/-- C10: for any slice returned by `Slice`, `Get(k)` errs exactly when
`k < 0` or `k > s.Size()`; the boundary call `Get(s.Size())` — one past the
last entry — succeeds, and the returned record's `Time`, `Index` and
`Offset` accessors all decode as 0 (their little-endian reads fall outside
the buffer and the error is swallowed). -/
theorem indexSliceGet_error_iff_and_boundary_zero
    (file : List Nat) (count : Nat) (offset limit : Int) (s : IndexSliceV1)
    (h : indexFileSlice file count offset limit = .ok s) :
    (∀ k : Int, (∃ e, indexSliceGet s k = .error e) ↔ (k < 0 ∨ k > (s.size : Int)))
    ∧ ∃ r, indexSliceGet s (s.size : Int) = .ok r ∧
        indexRecordTime r = 0 ∧ indexRecordIndex r = 0 ∧ indexRecordOffset r = 0 := by
  have hlen := indexFileSlice_ok_buffer_length file count offset limit s h
  constructor
  · intro k
    constructor
    · rintro ⟨e, he⟩
      unfold indexSliceGet at he
      split at he
      · rename_i hg
        omega
      · exact absurd he (by simp)
    · intro hk
      refine ⟨.sliceOutOfBounds, ?_⟩
      unfold indexSliceGet
      rw [if_pos (by omega)]
  · refine ⟨⟨s.buffer, (s.size : Int).toNat * versionOneIndexRecordSize⟩, ?_, ?_, ?_, ?_⟩
    · unfold indexSliceGet
      rw [if_neg (by omega)]
    · unfold indexRecordTime xbInt64 xbUintW
      dsimp only
      rw [if_neg (by rw [hlen]; unfold versionOneIndexRecordSize; omega)]
      rfl
    · unfold indexRecordIndex xbUint64 xbUintW
      dsimp only
      rw [if_neg (by rw [hlen]; unfold versionOneIndexRecordSize; omega)]
      rfl
    · unfold indexRecordOffset xbInt64 xbUintW
      dsimp only
      rw [if_neg (by rw [hlen]; unfold versionOneIndexRecordSize; omega)]
      rfl

/-- C10 witness: a concrete slice of one entry read from a one-entry index
file; `Get(1)` succeeds and decodes zeros. -/
theorem indexSliceGet_error_iff_and_boundary_zero_witness :
    (∀ k : Int,
      (∃ e, indexSliceGet ⟨List.replicate 24 0, 1⟩ k = .error e) ↔
        (k < 0 ∨ k > ((1 : Nat) : Int)))
    ∧ ∃ r, indexSliceGet ⟨List.replicate 24 0, 1⟩ (((1 : Nat) : Int)) = .ok r ∧
        indexRecordTime r = 0 ∧ indexRecordIndex r = 0 ∧ indexRecordOffset r = 0 :=
  indexSliceGet_error_iff_and_boundary_zero (List.replicate 32 0) 1 0 1
    ⟨List.replicate 24 0, 1⟩ rfl

set_option maxRecDepth 4000 in
/-- C6: the claim that closing and reopening the log reproduces the
snapshot hash — equivalently, that the hash recomputed at open by
streaming the index file *minus its header* equals the incrementally
maintained rolling hash — is false on the code: `v1.Create` seeds the
hash with `io.Copy(hash, idxFile)` from file position 0, i.e. over the
16-byte `IDX` header *and* the entries.  After one write the running hash
input is exactly the entry bytes, while a reopen hashes header ++ entries,
and the two XXH64 values differ, so the reopened snapshot hash cannot
match the one recorded before close. -/
theorem walWriteV1_reopen_hash_differs :
    ((walWriteV1 65536 freshWalV1 0 (List.replicate 8 0)).1).hashInput =
      ((walWriteV1 65536 freshWalV1 0 (List.replicate 8 0)).1).idxEntries ∧
    xxh64 (fileHeaderBytes idxSignature 1 0 0 ++
        ((walWriteV1 65536 freshWalV1 0 (List.replicate 8 0)).1).idxEntries) ≠
      xxh64 ((walWriteV1 65536 freshWalV1 0 (List.replicate 8 0)).1).hashInput :=
  ⟨rfl, by decide⟩

/-- C7: the claim that decoding an encoded record returns a record equal to
the original in size, flags, time, index *and payload bytes* is false on
the code: `UnmarshalBasicLogRecord` copies the payload into the record's
nil `data` slice (`copy(r.data, buffer[24:])`), which copies zero bytes.
Round-tripping a record with payload `[42]` succeeds and preserves the
header fields, but the decoded payload is empty. -/
theorem unmarshalBasicLogRecord_drops_payload :
    unmarshalBasicLogRecord (basicLogRecordMarshal ⟨1, 5, 3, 2, [42]⟩) =
      .ok ⟨1, 5, 3, 2, []⟩ ∧
    ([] : List Nat) ≠ [42] :=
  ⟨rfl, by decide⟩

/-- C2: the claim that reopening an index file holding at least one full
24-byte entry reconstructs the count as the last entry's stored index plus
one is false on the code: opening a file consisting of the 16-byte header
followed by one complete entry with stored index 0 yields count 0 — not
1 — and truncates the file back to the bare header (the factory compares
its zero-initialized `size` variable, not the file size, against
`HEADER + ENTRY`, so it always takes the truncation branch). -/
theorem v1IndexFactoryOpen_reopen_zeroes_count :
    v1IndexFactoryOpen 0 0
        (fileHeaderBytes idxSignature 1 0 0 ++ v1EntryBytes 0 0 16) =
      ⟨0, fileHeaderBytes idxSignature 1 0 0⟩ ∧
    (0 : Nat) ≠ 0 + 1 :=
  ⟨by decide, by decide⟩

/-- C8: the claim that `Pipe(offset, limit, sink)` writes every record in
`[offset, offset+limit)` to the sink when no error occurs is false on the
code: with one record in the log, `Pipe(0, 1, sink)` returns success while
the sink stays empty — the loop condition is `err != nil && ...`, so a
successful `Seek` terminates the loop before the first iteration (and with
the source's actual nil cursor the call would panic instead). -/
theorem versionOneLogFilePipe_success_writes_nothing :
    versionOneLogFilePipe [⟨0, [1, 2, 3]⟩] 0 1 [] = .ok [] none ∧
    ([] : List Nat) ≠ [1, 2, 3] :=
  ⟨rfl, by decide⟩

end Wallaby
